import Mathlib

/-!
# Portfolio website: model animation, portrait effect and build configuration

A shallow embedding of

* `src/components/Model/animation.js` (`getModelAnimation`),
* `src/components/Portrait/index.js` (the mouse-move effect of `Model`),
* `webpack.config.js` (the configuration factory) and
* `.storybook/main.js` (`webpackFinal`).

JavaScript numbers are embedded as IEEE 754 double precision values (`F64`):
the arithmetic of the sources (`y - 1`, `300 * index + showDelay * 0.6`, ...)
rounds to the nearest double, ties to even.  The integer literals of the webpack
configuration, on which nothing is computed, are kept as integers.  Library
calls (three.js, popmotion, the DOM, the `path` module of node) are not part of
the repository; what the sources hand to them is recorded as data and what they
compute is a parameter.
-/

set_option autoImplicit false

set_option maxRecDepth 8000

namespace Portfolio

/-! ## JavaScript numbers -/

/-- A JavaScript number, an IEEE 754 double: `finite negative m e` is the value
`m * 2 ^ e` with the given sign, `m` being odd (so that every finite non-zero
value is written in one way only). -/
inductive F64 where
  | nan
  | inf (negative : Bool)
  | zero (negative : Bool)
  | finite (negative : Bool) (mantissa : Nat) (exponent : Int)
deriving DecidableEq, Repr

namespace F64

/-- Auxiliary to `log2`. -/
def log2Aux (fuel n : Nat) : Nat :=
  match fuel with
  | 0 => 0
  | fuel + 1 => if n < 2 then 0 else log2Aux fuel (n / 2) + 1

/-- The position of the leading bit of `n` (0 for `n < 2`). -/
def log2 (n : Nat) : Nat := log2Aux n n

/-- The integer `e` with `2 ^ e ≤ n / d < 2 ^ (e + 1)`, for positive `n` and `d`. -/
def floorLog2 (n d : Nat) : Int :=
  let e0 : Int := (log2 n : Int) - (log2 d : Int)
  if (if 0 ≤ e0 then d * 2 ^ e0.toNat ≤ n else d ≤ n * 2 ^ (-e0).toNat) then e0 else e0 - 1

/-- The integer nearest to `n / d`, the even one of two that are equally near. -/
def roundHalfEven (n d : Nat) : Nat :=
  let q := n / d
  let r := n % d
  if 2 * r < d then q
  else if d < 2 * r then q + 1
  else if q % 2 = 0 then q else q + 1

/-- The value `m * 2 ^ e` written with an odd mantissa. -/
def normalize (fuel : Nat) (negative : Bool) (m : Nat) (e : Int) : F64 :=
  match fuel with
  | 0 => finite negative m e
  | fuel + 1 =>
    if m % 2 = 0 then normalize fuel negative (m / 2) (e + 1) else finite negative m e

/-- The double nearest to `n / d` (with the given sign), ties to even: 53
significant bits, exponents from -1022 (below that the spacing stays
`2 ^ -1074`), infinity from `2 ^ 1024` on. -/
def roundQuot (negative : Bool) (n d : Nat) : F64 :=
  if n = 0 then zero negative
  else
    let e := max (floorLog2 n d) (-1022)
    let s := e - 52
    let m :=
      if 0 ≤ s then roundHalfEven n (d * 2 ^ s.toNat) else roundHalfEven (n * 2 ^ (-s).toNat) d
    if m = 0 then zero negative
    else if 1024 ≤ (log2 m : Int) + s then inf negative
    else normalize (log2 m) negative m s

/-- The double nearest to `n * 2 ^ e`. -/
def roundScaled (negative : Bool) (n : Nat) (e : Int) : F64 :=
  if 0 ≤ e then roundQuot negative (n * 2 ^ e.toNat) 1 else roundQuot negative n (2 ^ (-e).toNat)

/-- The double nearest to `n / d * 2 ^ e`. -/
def roundQuotScaled (negative : Bool) (n d : Nat) (e : Int) : F64 :=
  if 0 ≤ e then roundQuot negative (n * 2 ^ e.toNat) d else roundQuot negative n (d * 2 ^ (-e).toNat)

/-- The unary minus `-x`. -/
def neg : F64 → F64
  | nan => nan
  | inf s => inf (!s)
  | zero s => zero (!s)
  | finite s m e => finite (!s) m e

/-- The sum `x + y`. -/
def add : F64 → F64 → F64
  | nan, _ => nan
  | _, nan => nan
  | inf s, inf t => if s = t then inf s else nan
  | inf s, _ => inf s
  | _, inf t => inf t
  | zero s, zero t => zero (s && t)
  | zero _, finite t m e => finite t m e
  | finite s m e, zero _ => finite s m e
  | finite s m e, finite t n f =>
    let g := min e f
    let a : Int := (if s then -1 else 1) * (m * 2 ^ (e - g).toNat : Nat)
    let b : Int := (if t then -1 else 1) * (n * 2 ^ (f - g).toNat : Nat)
    let r := a + b
    if r = 0 then zero false else roundScaled (decide (r < 0)) r.natAbs g

/-- The difference `x - y`. -/
def sub (x y : F64) : F64 := add x (neg y)

/-- The product `x * y`. -/
def mul : F64 → F64 → F64
  | nan, _ => nan
  | _, nan => nan
  | inf _, zero _ => nan
  | zero _, inf _ => nan
  | inf s, inf t => inf (xor s t)
  | inf s, finite t _ _ => inf (xor s t)
  | finite s _ _, inf t => inf (xor s t)
  | zero s, zero t => zero (xor s t)
  | zero s, finite t _ _ => zero (xor s t)
  | finite s _ _, zero t => zero (xor s t)
  | finite s m e, finite t n f => roundScaled (xor s t) (m * n) (e + f)

/-- The quotient `x / y`. -/
def div : F64 → F64 → F64
  | nan, _ => nan
  | _, nan => nan
  | inf _, inf _ => nan
  | zero _, zero _ => nan
  | inf s, zero t => inf (xor s t)
  | inf s, finite t _ _ => inf (xor s t)
  | zero s, inf t => zero (xor s t)
  | zero s, finite t _ _ => zero (xor s t)
  | finite s _ _, inf t => zero (xor s t)
  | finite s _ _, zero t => inf (xor s t)
  | finite s m e, finite t n f => roundQuotScaled (xor s t) m n (e - f)

/-- The number written as the integer literal `n`. -/
def ofNat (n : Nat) : F64 := roundQuot false n 1

/-- The number written as the decimal literal `m * 10 ^ -e` (or `m * 10 ^ e`). -/
def ofScientific (m : Nat) (exponentSign : Bool) (e : Nat) : F64 :=
  if exponentSign then roundQuot false m (10 ^ e) else roundQuot false (m * 10 ^ e) 1

/-- The real value of a finite number. -/
def value? : F64 → Option Rat
  | finite s m e => some ((if s then -1 else 1) * (m : Rat) * (2 : Rat) ^ e)
  | zero _ => some 0
  | _ => none

/-- The constant `Math.PI`. -/
def pi : F64 := finite false 884279719003555 (-48)

end F64

instance : Add F64 := ⟨F64.add⟩

instance : Sub F64 := ⟨F64.sub⟩

instance : Mul F64 := ⟨F64.mul⟩

instance : Div F64 := ⟨F64.div⟩

instance : Neg F64 := ⟨F64.neg⟩

instance (n : Nat) : OfNat F64 n := ⟨F64.ofNat n⟩

instance : OfScientific F64 := ⟨F64.ofScientific⟩

/-! ## `src/components/Model/animation.js` -/

/-- The three.js `Vector3` (also used for the `x`, `y`, `z` of an `Euler`). -/
structure Vector3 where
  x : F64
  y : F64
  z : F64
deriving DecidableEq, Repr

/-- The method `Vector3.prototype.toArray`: the components, in order. -/
def Vector3.toArray (v : Vector3) : F64 × F64 × F64 := (v.x, v.y, v.z)

/-- The call `v.set(x, y, z)`: overwrite the three components of `v`. -/
def Vector3.set (_v : Vector3) (x y z : F64) : Vector3 := ⟨x, y, z⟩

/-- The call `v.set(...a)` for a three-element array `a`. -/
def Vector3.setSpread (v : Vector3) (a : F64 × F64 × F64) : Vector3 :=
  v.set a.1 a.2.1 a.2.2

/-- The constant `ModelAnimationType.SpringUp`. -/
def ModelAnimationType.SpringUp : String := "spring-up"

/-- The constant `ModelAnimationType.LaptopOpen`. -/
def ModelAnimationType.LaptopOpen : String := "laptop-open"

/-- The constant `MeshType.Frame`. -/
def MeshType.Frame : String := "Frame"

/-- The constant `MeshType.Logo`. -/
def MeshType.Logo : String := "Logo"

/-- The constant `MeshType.Screen`. -/
def MeshType.Screen : String := "Screen"

/-- A child of `gltf.scene`: the fields `getModelAnimation` reads or writes. -/
structure Object3D where
  name : String
  rotation : Vector3
deriving DecidableEq, Repr

/-- The object `gltf.scene`: its position and its direct children. -/
structure Scene where
  position : Vector3
  children : List Object3D
deriving DecidableEq, Repr

/-- The loaded model file, `gltf`. -/
structure GLTF where
  scene : Scene
deriving DecidableEq, Repr

/-- The `model` description passed by the caller. -/
structure ModelDesc where
  position : Vector3
  animation : String
deriving DecidableEq, Repr

/-- The argument object of `getModelAnimation`. -/
structure AnimationArgs where
  model : ModelDesc
  gltf : GLTF
  reduceMotion : Bool
  index : F64
  showDelay : F64
deriving DecidableEq, Repr

/-- The options object handed to popmotion `spring`; `from_` and `to_` are its
`from` and `to`. -/
structure SpringProps where
  from_ : Vector3
  to_ : Vector3
  stiffness : F64
  damping : F64
  restSpeed : F64
deriving DecidableEq, Repr

/-- A popmotion action as built in this file: `delay(ms)` or `spring(props)`. -/
inductive Action where
  | delay (timeToDelay : F64)
  | spring (props : SpringProps)
deriving DecidableEq, Repr

/-- The result of `chain(a, b, ...)`: the actions, played one after another. -/
def chain (actions : List Action) : List Action := actions

/-- What the subscriber of a `value(...)` writes to on every update. -/
inductive ValueTarget where
  | scenePosition
  | childRotation (child : Nat)
deriving DecidableEq, Repr

/-- The result of `value(init, onUpdate)`: the initial reading and the subscriber. -/
structure ModelValue where
  init : Vector3
  target : ValueTarget
deriving DecidableEq, Repr

/-- The subscriber of a `modelValue`, run on an update `{ x, y, z }`:
`gltf.scene.position.set(x, y, z)` or `frameNode.rotation.set(x, y, z)`
(the following `invalidate()` only requests a frame). -/
def ValueTarget.onUpdate (t : ValueTarget) (v : Vector3) (s : Scene) : Scene :=
  match t with
  | .scenePosition => { s with position := s.position.set v.x v.y v.z }
  | .childRotation i =>
    { s with children := s.children.modify (fun n => { n with rotation := n.rotation.set v.x v.y v.z }) i }

/-- The object `{ animation, modelValue }` returned by `getModelAnimation`. -/
structure ModelAnimation where
  animation : List Action
  modelValue : ModelValue
deriving DecidableEq, Repr

/-- Errors thrown by the JavaScript runtime. -/
inductive JsError where
  | typeError (what : String)
deriving DecidableEq, Repr

/-- The function `getModelAnimation({ model, gltf, reduceMotion, index, showDelay })`.

The first component is `gltf.scene` as the call leaves it, the second what the
call returns: `.ok none` for `undefined`, `.ok (some r)` for an object, and
`.error e` when the call throws.  `frameNode` is the position in
`gltf.scene.children` of the node that `find` returns.  `degToRad` is
`MathUtils.degToRad` of three.js. -/
def getModelAnimation (degToRad : F64 → F64) (args : AnimationArgs) :
    Scene × Except JsError (Option ModelAnimation) :=
  let model := args.model
  let scene := args.gltf.scene
  let positionVector : Vector3 := ⟨model.position.x, model.position.y, model.position.z⟩
  if args.reduceMotion then
    ({ scene with position := scene.position.setSpread positionVector.toArray }, .ok none)
  else if model.animation = ModelAnimationType.SpringUp then
    -- Simple slide up animation
    let startPosition : Vector3 := ⟨positionVector.x, positionVector.y - 1, positionVector.z⟩
    let endPosition := positionVector
    let scene1 := { scene with position := scene.position.setSpread startPosition.toArray }
    let modelValue : ModelValue := ⟨scene1.position, .scenePosition⟩
    let animation := chain [
      .delay (300 * args.index + args.showDelay * 0.6),
      .spring { from_ := startPosition, to_ := endPosition,
                stiffness := 60, damping := 16, restSpeed := 0.001 }]
    (scene1, .ok (some { animation := animation, modelValue := modelValue }))
  else if model.animation = ModelAnimationType.LaptopOpen then
    -- Laptop open animation
    let frameNode := scene.children.findIdx? (fun node => node.name = MeshType.Frame)
    let startRotation : Vector3 := ⟨degToRad 90, 0, 0⟩
    let endRotation : Vector3 := ⟨0, 0, 0⟩
    let scene1 := { scene with position := scene.position.setSpread positionVector.toArray }
    match frameNode with
    | none => (scene1, .error (.typeError "frameNode is undefined"))
    | some i =>
      let setRotation := fun (n : Object3D) =>
        { n with rotation := n.rotation.setSpread startRotation.toArray }
      let scene2 := { scene1 with children := scene1.children.modify setRotation i }
      let modelValue : ModelValue := ⟨startRotation, .childRotation i⟩
      let animation := chain [
        .delay (300 * args.index + args.showDelay + 200),
        .spring { from_ := startRotation, to_ := endRotation,
                  stiffness := 50, damping := 14, restSpeed := 0.001 }]
      (scene2, .ok (some { animation := animation, modelValue := modelValue }))
  else
    (scene, .ok none)

/-! ## `src/components/Portrait/index.js`: the mouse-move effect of `Model` -/

/-- A pair `{ x, y }`. -/
structure Vector2 where
  x : F64
  y : F64
deriving DecidableEq, Repr

/-- The fields of a DOM `mousemove` event read by `onMouseMove`. -/
structure MouseEvent where
  clientX : F64
  clientY : F64
deriving DecidableEq, Repr

/-- The options object handed to popmotion `spring` by `onMouseMove`. -/
structure RotationSpringProps where
  from_ : Vector2
  to_ : Vector2
  stiffness : F64
  damping : F64
  velocity : Vector2
  restSpeed : F64
  mass : F64
deriving DecidableEq, Repr

/-- The playback object returned by `spring(props).start(...)`; `stopped` records
that its `stop()` has been called. -/
structure Playback where
  props : RotationSpringProps
  stopped : Bool
deriving DecidableEq, Repr

/-- The call `playback.stop()`. -/
def Playback.stop (p : Playback) : Playback := { p with stopped := true }

/-- The popmotion value created by `value({ x, y }, onUpdate)`: what `get()` and
`getVelocity()` currently return. -/
structure ValueReaction where
  current : Vector2
  velocity : Vector2
deriving DecidableEq, Repr

/-- The call `value.get()`. -/
def ValueReaction.get (v : ValueReaction) : Vector2 := v.current

/-- The call `value.getVelocity()`. -/
def ValueReaction.getVelocity (v : ValueReaction) : Vector2 := v.velocity

/-- What the effect shares with the rest of the page: the window, the scene of
`useThree()` and the springs that have been started, in the order they were
started.  A listener is identified by its callback; `mousemoveListeners` are the
callbacks registered on `window` for `'mousemove'`. -/
structure Page where
  innerWidth : F64
  innerHeight : F64
  mousemoveListeners : List Nat
  rotation : Vector3
  playbacks : List Playback
  invalidations : Nat
deriving DecidableEq, Repr

/-- The call `window.addEventListener('mousemove', callback)`: a callback that is already
registered is not added again. -/
def Page.addEventListener (w : Page) (callback : Nat) : Page :=
  if callback ∈ w.mousemoveListeners then w
  else { w with mousemoveListeners := w.mousemoveListeners ++ [callback] }

/-- The call `window.removeEventListener('mousemove', callback)`; the list holds a
callback at most once, so removing it is removing all its occurrences. -/
def Page.removeEventListener (w : Page) (callback : Nat) : Page :=
  { w with mousemoveListeners := w.mousemoveListeners.filter (fun c => c ≠ callback) }

/-- The variables closed over by `onMouseMove` and `cleanup`; `rotationSpring`
is the position in `Page.playbacks` of the playback it refers to. -/
structure EffectVars where
  rotationSpring : Option Nat
  rotationSpringValue : Option ValueReaction
deriving DecidableEq, Repr

/-- The subscriber of `rotationSpringValue`: `rotation.set(x, y, rotation.z)` and
`invalidate()`. -/
def rotationOnUpdate (v : Vector2) (w : Page) : Page :=
  { w with rotation := w.rotation.set v.x v.y w.rotation.z,
           invalidations := w.invalidations + 1 }

/-- The callback `onMouseMove(event)`. -/
def onMouseMove (event : MouseEvent) (st : Page × EffectVars) : Page × EffectVars :=
  let w := st.1
  let vars := st.2
  let rotation := w.rotation
  let position : Vector2 :=
    ⟨(event.clientX - w.innerWidth / 2) / w.innerWidth,
     (event.clientY - w.innerHeight / 2) / w.innerHeight⟩
  let rotationSpringValue : ValueReaction :=
    match vars.rotationSpringValue with
    | some v => v
    | none => ⟨⟨rotation.x, rotation.y⟩, ⟨0, 0⟩⟩
  let started : Playback :=
    { props := { from_ := rotationSpringValue.get,
                 to_ := ⟨position.y / 2, position.x / 2⟩,
                 stiffness := 40,
                 damping := 40,
                 velocity := rotationSpringValue.getVelocity,
                 restSpeed := 0.00001,
                 mass := 1.4 },
      stopped := false }
  ({ w with playbacks := w.playbacks ++ [started] },
   { rotationSpring := some w.playbacks.length,
     rotationSpringValue := some rotationSpringValue })

/-- The body of the effect, up to the `return`: `callback` is the identity of
the `onMouseMove` closure this run creates. -/
def modelEffect (isInViewport reduceMotion : Bool) (callback : Nat) (w : Page) :
    Page × EffectVars :=
  let vars : EffectVars := { rotationSpring := none, rotationSpringValue := none }
  if isInViewport && !reduceMotion then (w.addEventListener callback, vars)
  else (w, vars)

/-- What happens between the effect and its cleanup: the window dispatches a
`mousemove`, or a running spring writes a new reading into the value. -/
inductive PageEvent where
  | mouseMove (event : MouseEvent)
  | springFrame (current velocity : Vector2)
deriving DecidableEq, Repr

/-- One event: a `mousemove` reaches `onMouseMove` when the callback is
registered; a spring frame updates the value (when there is one) and runs its
subscriber. -/
def pageStep (callback : Nat) (st : Page × EffectVars) (e : PageEvent) : Page × EffectVars :=
  match e with
  | .mouseMove event =>
    if callback ∈ st.1.mousemoveListeners then onMouseMove event st else st
  | .springFrame current velocity =>
    match st.2.rotationSpringValue with
    | none => st
    | some _ =>
      (rotationOnUpdate current st.1,
       { st.2 with rotationSpringValue := some ⟨current, velocity⟩ })

/-- A sequence of events, in order. -/
def pageRun (callback : Nat) (st : Page × EffectVars) (es : List PageEvent) : Page × EffectVars :=
  es.foldl (pageStep callback) st

/-- The function `cleanup()` returned by the effect:
`window.removeEventListener('mousemove', onMouseMove)`, then
`rotationSpring?.stop()`. -/
def cleanup (callback : Nat) (st : Page × EffectVars) : Except JsError Page :=
  let w := st.1.removeEventListener callback
  match st.2.rotationSpring with
  | none => .ok w
  | some i => .ok { w with playbacks := w.playbacks.modify Playback.stop i }

/-- The effect, the events and then the cleanup. -/
def effectThenCleanup (isInViewport reduceMotion : Bool) (callback : Nat) (w : Page)
    (es : List PageEvent) : Except JsError Page :=
  cleanup callback (pageRun callback (modelEffect isInViewport reduceMotion callback w) es)

/-- Whether an event is a `mousemove`. -/
def PageEvent.isMouseMove : PageEvent → Bool
  | .mouseMove _ => true
  | .springFrame _ _ => false

/-! ## JavaScript values for the build configuration -/

/-- The JavaScript values that occur in a webpack configuration.  `fn` is a
function (identified by a label), `inst cls args` the object `new cls(...args)`;
an object is its own properties, a property name being looked up from the front
of the list. -/
inductive JsVal where
  | undefined
  | null
  | bool (b : Bool)
  | num (n : Int)
  | str (s : String)
  | regex (source : String)
  | fn (label : String)
  | inst (cls : String) (args : List JsVal)
  | arr (items : List JsVal)
  | obj (fields : List (String × JsVal))

/-- The own properties of an object literal. -/
abbrev Fields := List (String × JsVal)

/-- The value of the property `key`, if the object has it. -/
def Fields.find? (fs : Fields) (key : String) : Option JsVal :=
  match fs with
  | [] => none
  | (k, v) :: rest => if k = key then some v else Fields.find? rest key

/-- Reading the property `key` of an object: `undefined` when it is absent. -/
def Fields.get (fs : Fields) (key : String) : JsVal :=
  (Fields.find? fs key).getD .undefined

/-- Defining the property `key`: an existing property gets the new value, a new
one is added at the end. -/
def Fields.set (fs : Fields) (key : String) (v : JsVal) : Fields :=
  match fs with
  | [] => [(key, v)]
  | (k, w) :: rest => if k = key then (k, v) :: rest else (k, w) :: Fields.set rest key v

/-- The elements of an array as properties `0`, `1`, ... counted from `i`. -/
def indexedFrom (i : Nat) (items : List JsVal) : Fields :=
  match items with
  | [] => []
  | v :: rest => (toString i, v) :: indexedFrom (i + 1) rest

/-- The own enumerable properties that an object spread `{ ...v }` copies:
nothing for `undefined`, `null` and the other primitives, the indexed
characters of a string, the indexed elements of an array. -/
def JsVal.ownProps (v : JsVal) : Fields :=
  match v with
  | .obj fs => fs
  | .arr items => indexedFrom 0 items
  | .str s => indexedFrom 0 (s.toList.map (fun c => JsVal.str (String.singleton c)))
  | _ => []

/-- The property read `v.key` for the names `module`, `resolve`, `modules`,
`rules`, `output`, `filename` and `chunkFilename` used below (no built-in
prototype defines one of them): a `TypeError` on `undefined` and `null`, the
own property of an object, `undefined` otherwise. -/
def JsVal.prop (v : JsVal) (key : String) : Except JsError JsVal :=
  match v with
  | .undefined => .error (.typeError ("Cannot read properties of undefined, reading " ++ key))
  | .null => .error (.typeError ("Cannot read properties of null, reading " ++ key))
  | .obj fs => .ok (Fields.get fs key)
  | _ => .ok .undefined

/-- The array spread `[...v]`: the elements of an array, the characters of a
string, a `TypeError` for a value that is not iterable. -/
def JsVal.iterate (v : JsVal) : Except JsError (List JsVal) :=
  match v with
  | .arr items => .ok items
  | .str s => .ok (s.toList.map (fun c => JsVal.str (String.singleton c)))
  | _ => .error (.typeError "value is not iterable")

/-- The comparison `v === s` with a string literal `s`. -/
def JsVal.strictEqStr (v : JsVal) (s : String) : Bool :=
  match v with
  | .str t => t = s
  | _ => false

/-- JavaScript truthiness (`Boolean(v)`). -/
def JsVal.truthy (v : JsVal) : Bool :=
  match v with
  | .undefined => false
  | .null => false
  | .bool b => b
  | .num n => n ≠ 0
  | .str s => s ≠ ""
  | _ => true

/-- The operator `a && b` on values. -/
def JsVal.and (a b : JsVal) : JsVal := if a.truthy then b else a

/-- The operator `a || b` on values. -/
def JsVal.or (a b : JsVal) : JsVal := if a.truthy then a else b

/-- The call `items.filter(Boolean)`. -/
def filterBoolean (items : List JsVal) : List JsVal := items.filter JsVal.truthy

/-- The object `process.env`: names and string values. -/
abbrev ProcessEnv := List (String × String)

/-- The read `process.env[name]`. -/
def ProcessEnv.get? (env : ProcessEnv) (name : String) : Option String :=
  match env with
  | [] => none
  | (k, v) :: rest => if k = name then some v else ProcessEnv.get? rest name

/-- The assignment `process.env[name] = value` (the value already converted to a string). -/
def ProcessEnv.set (env : ProcessEnv) (name : String) (value : String) : ProcessEnv :=
  match env with
  | [] => [(name, value)]
  | (k, v) :: rest => if k = name then (k, value) :: rest else (k, v) :: ProcessEnv.set rest name value

/-- What the configuration takes from node and from the JavaScript runtime. -/
structure Host where
  /-- The result of `process.cwd()`. -/
  cwd : String
  /-- The function `path.resolve(a, b)`. -/
  pathResolve : String → String → String
  /-- The function `path.resolve(a)`. -/
  pathResolve1 : String → String
  /-- The function `path.join(a, b)`. -/
  pathJoin : String → String → String
  /-- The function `require.resolve(request)`. -/
  requireResolve : String → String
  /-- The function `fs.existsSync(path)`. -/
  existsSync : String → Bool
  /-- The digest `createHash('md5').update(JSON.stringify(process.env)).digest('hex')`. -/
  md5OfEnv : ProcessEnv → String
  /-- The path `__filename` of `webpack.config.js`. -/
  filename : String
  /-- The path `__dirname` of `webpack.config.js`. -/
  dirname : String
  /-- The path `MiniCssExtractPlugin.loader`. -/
  miniCssExtractLoader : String
  /-- The conversion of a value to a string, as on assignment to `process.env`. -/
  toStr : JsVal → String
  /-- The method `String.prototype.toLowerCase`. -/
  toLowerCase : String → String

/-! ## `webpack.config.js` -/

/-- The `devServer` section. -/
def configDevServer (host : Host) : JsVal :=
  .obj [
    ("static", .obj [("directory", .str (host.pathJoin host.cwd "public"))]),
    ("compress", .bool true),
    ("historyApiFallback", .obj [("disableDotRule", .bool true), ("index", .str "/")])]

/-- The `output` section. -/
def configOutput (host : Host) (isEnvDevelopment isEnvProduction : Bool) : JsVal :=
  .obj [
    -- The build folder.
    ("path", .str (host.pathResolve host.cwd "build")),
    -- Add /* filename */ comments to generated require()s in the output.
    ("pathinfo", .bool isEnvDevelopment),
    -- There will be one main bundle, and one file per asynchronous chunk.
    ("filename",
      if isEnvProduction then .str "static/js/[name].[contenthash:8].js"
      else .str "static/js/bundle.js"),
    -- There are also additional JS chunk files for code splitting.
    ("chunkFilename",
      if isEnvProduction then .str "static/js/[name].[contenthash:8].chunk.js"
      else .str "static/js/[name].chunk.js"),
    ("assetModuleFilename", .str "static/media/[name].[hash][ext]"),
    -- Where the app is served from
    ("publicPath", .str "/"),
    -- Point sourcemap entries to original disk location
    ("devtoolModuleFilenameTemplate",
      if isEnvProduction then .fn "info => path.relative(src, info.absoluteResourcePath)"
      else JsVal.and (.bool isEnvDevelopment) (.fn "info => path.resolve(info.absoluteResourcePath)"))]

/-- The `cache` section; `env` is `process.env` when the object is built. -/
def configCache (host : Host) (env : ProcessEnv) : JsVal :=
  .obj [
    ("type", .str "filesystem"),
    ("version", .str (host.md5OfEnv env)),
    ("cacheDirectory", .str (host.pathResolve host.cwd "node_modules/.cache")),
    ("store", .str "pack"),
    ("buildDependencies", .obj [
      ("defaultWebpack", .arr [.str "webpack/lib/"]),
      ("config", .arr [.str host.filename]),
      ("tsconfig", .arr (([host.pathResolve host.cwd "jsconfig.js"].filter
        (fun f => host.existsSync f)).map JsVal.str))])]

/-- The `optimization` section. -/
def configOptimization (isEnvProduction : Bool) : JsVal :=
  .obj [
    ("minimize", .bool isEnvProduction),
    ("minimizer", .arr [
      .inst "TerserPlugin" [.obj [
        ("terserOptions", .obj [
          ("parse", .obj [("ecma", .num 8)]),
          ("compress", .obj [
            ("ecma", .num 5),
            ("warnings", .bool false),
            ("comparisons", .bool false),
            ("inline", .num 2)]),
          ("mangle", .obj [("safari10", .bool true)]),
          ("output", .obj [
            ("ecma", .num 5),
            ("comments", .bool false),
            ("ascii_only", .bool true)])])]],
      .inst "CSSMinimizerPlugin" []])]

/-- The `resolve.modules` array. -/
def configResolveModules (host : Host) : List JsVal :=
  [.str "node_modules",
   .str (host.pathResolve host.cwd "node_modules"),
   .str (host.pathResolve host.cwd "src")]

/-- The `resolve` section. -/
def configResolve (host : Host) : JsVal :=
  .obj [
    ("modules", .arr (configResolveModules host)),
    ("extensions", .arr [.str ".js", .str ".json"])]

/-- The rule for application JS, processed with Babel; `env` is `process.env`
when the object is built. -/
def ruleAppJs (host : Host) (env : ProcessEnv) (isEnvDevelopment isEnvProduction : Bool) : JsVal :=
  .obj [
    ("test", .regex "\\.js$"),
    ("exclude", .regex "node_modules"),
    ("loader", .str (host.requireResolve "babel-loader")),
    ("options", .obj [
      ("customize", .str (host.requireResolve "babel-preset-react-app/webpack-overrides")),
      ("presets", .arr [
        .arr [
          .str (host.requireResolve "babel-preset-react-app"),
          .obj [("runtime", .str "automatic")]]]),
      ("plugins", .arr (filterBoolean [
        JsVal.and (.bool isEnvDevelopment)
          (JsVal.and (.bool (decide (ProcessEnv.get? env "STORYBOOK" ≠ some "true")))
            (.str (host.requireResolve "react-refresh/babel")))])),
      ("cacheDirectory", .bool true),
      ("cacheCompression", .bool false),
      ("compact", .bool isEnvProduction)])]

/-- The rule for JS outside of the app, processed with Babel. -/
def ruleDependencyJs (host : Host) : JsVal :=
  .obj [
    ("test", .regex "\\.(js|mjs)$"),
    ("exclude", .regex "@babel(?:\\/|\\\\\x7b1,2\x7d)runtime"),
    ("loader", .str (host.requireResolve "babel-loader")),
    ("options", .obj [
      ("babelrc", .bool false),
      ("configFile", .bool false),
      ("compact", .bool false),
      ("presets", .arr [
        .arr [
          .str (host.requireResolve "babel-preset-react-app/dependencies"),
          .obj [("helpers", .bool true)]]]),
      ("cacheDirectory", .bool true),
      ("cacheCompression", .bool false)])]

/-- The rule for style sheets. -/
def ruleCss (host : Host) (isEnvDevelopment isEnvProduction : Bool) : JsVal :=
  .obj [
    ("test", .regex "\\.css$"),
    ("use", .arr (filterBoolean [
      JsVal.and (.bool isEnvDevelopment) (.str (host.requireResolve "style-loader")),
      JsVal.and (.bool isEnvProduction) (.obj [("loader", .str host.miniCssExtractLoader)]),
      .obj [
        ("loader", .str (host.requireResolve "css-loader")),
        ("options", .obj [
          ("importLoaders", .num 1),
          ("sourceMap", .bool (!isEnvProduction))])],
      .obj [
        ("loader", .str (host.requireResolve "postcss-loader")),
        ("options", .obj [
          ("postcssOptions", .obj [
            ("ident", .str "postcss"),
            ("plugins", .arr [
              .str "postcss-flexbugs-fixes",
              .arr [
                .str "postcss-preset-env",
                .obj [
                  ("autoprefixer", .obj [("flexbox", .str "no-2009")]),
                  ("stage", .num 3),
                  ("features", .obj [
                    ("nesting-rules", .bool true),
                    ("custom-media-queries", .obj [("importFrom", .str "src/app/index.css")])])]],
              .str "postcss-normalize"])]),
          ("sourceMap", .bool (!isEnvProduction))])]])),
    ("sideEffects", .bool true)]

/-- The `module.rules` array; `env` is `process.env` when it is built. -/
def configModuleRules (host : Host) (env : ProcessEnv) (isEnvDevelopment isEnvProduction : Bool) :
    List JsVal :=
  filterBoolean [
    .obj [
      ("oneOf", .arr [
        .obj [
          ("test", .regex "\\.(jpe?g|png)$"),
          ("type", .str "asset"),
          ("parser", .obj [("dataUrlCondition", .obj [("maxSize", .num 10000)])])],
        .obj [
          ("test", .regex "\\.svg$"),
          ("use", .arr [
            .obj [
              ("loader", .str "@svgr/webpack"),
              ("options", .obj [
                ("prettier", .bool false),
                ("svgo", .bool false),
                ("svgoConfig", .obj [
                  ("plugins", .arr [.obj [("removeViewBox", .bool false)]])]),
                ("titleProp", .bool true),
                ("ref", .bool true)])],
            .obj [
              ("loader", .str "file-loader"),
              ("options", .obj [("name", .str "static/media/[name].[hash].[ext]")])]]),
          ("issuer", .obj [("and", .arr [.regex "\\.(js|mdx?)$"])])],
        -- Process application JS with Babel.
        ruleAppJs host env isEnvDevelopment isEnvProduction,
        -- Process any JS outside of the app with Babel.
        ruleDependencyJs host,
        ruleCss host isEnvDevelopment isEnvProduction,
        .obj [
          ("include", .regex "\\.glsl$"),
          ("type", .str "asset/source")],
        .obj [
          ("include", .regex "\\.(glb|mp4|woff2)"),
          ("type", .str "asset/resource")]])]]

/-- The `module` section. -/
def configModule (host : Host) (env : ProcessEnv) (isEnvDevelopment isEnvProduction : Bool) :
    JsVal :=
  .obj [
    ("strictExportPresence", .bool true),
    ("rules", .arr (configModuleRules host env isEnvDevelopment isEnvProduction))]

/-- The `plugins` array; `env` is `process.env` when it is built. -/
def configPlugins (host : Host) (env : ProcessEnv) (isEnvDevelopment isEnvProduction : Bool) :
    List JsVal :=
  filterBoolean [
    -- Generates an index.html file with the <script> injected.
    .inst "HtmlWebpackPlugin" [.obj [
      ("inject", .bool true),
      ("template", .str (host.pathResolve host.cwd "public/index.html")),
      ("minify",
        if isEnvProduction then
          .obj [
            ("removeComments", .bool true),
            ("collapseWhitespace", .bool true),
            ("removeRedundantAttributes", .bool true),
            ("useShortDoctype", .bool true),
            ("removeEmptyAttributes", .bool true),
            ("removeStyleLinkTypeAttributes", .bool true),
            ("keepClosingSlash", .bool true),
            ("minifyJS", .bool true),
            ("minifyCSS", .bool true),
            ("minifyURLs", .bool true)]
        else .undefined)]],
    -- Makes some environment variables available to the JS code.
    .inst "webpack.DefinePlugin" [.obj [
      ("process.env.", .obj [
        ("NODE_ENV",
          JsVal.or
            (match ProcessEnv.get? env "NODE_ENV" with
              | some v => .str v
              | none => .undefined)
            (.str "development"))])]],
    -- Experimental hot reloading for React.
    JsVal.and (.bool isEnvDevelopment)
      (.inst "ReactRefreshWebpackPlugin" [.obj [("overlay", .bool false)]]),
    JsVal.and (.bool isEnvDevelopment) (.inst "CaseSensitivePathsPlugin" []),
    JsVal.and (.bool isEnvProduction)
      (.inst "MiniCssExtractPlugin" [.obj [
        ("filename", .str "static/css/[name].[contenthash:8].css"),
        ("chunkFilename", .str "static/css/[name].[contenthash:8].chunk.css")]]),
    .inst "ESLintPlugin" [.obj [
      ("extensions", .arr [.str "js"]),
      ("formatter", .str (host.requireResolve "react-dev-utils/eslintFormatter")),
      ("eslintPath", .str (host.requireResolve "eslint")),
      ("context", .str (host.pathResolve host.cwd "src")),
      ("cache", .bool true),
      ("cacheLocation", .str (host.pathResolve host.cwd "node_modules/.cache/.eslintcache")),
      ("cwd", .str (host.pathResolve1 host.cwd)),
      ("resolvePluginsRelativeTo", .str host.dirname),
      ("baseConfig", .obj [
        ("extends", .arr [.str (host.requireResolve "eslint-config-react-app/base")])])]]]

/-- The exported factory `(_, { mode }) => ...` of `webpack.config.js`: the
`process.env` it leaves and the configuration object it returns. -/
def createConfig (host : Host) (env : ProcessEnv) (_unused : JsVal) (mode : JsVal) :
    ProcessEnv × JsVal :=
  let env1 := ProcessEnv.set env "NODE_ENV" (host.toStr mode)
  let env2 := ProcessEnv.set env1 "BABEL_ENV" (host.toStr mode)
  let isEnvDevelopment : Bool := mode.strictEqStr "development"
  let isEnvProduction : Bool := mode.strictEqStr "production"
  (env2, .obj [
    ("target", .arr [.str "browserslist"]),
    ("mode", mode),
    ("bail", .bool isEnvProduction),
    ("devtool", if isEnvProduction then .bool false else .str "cheap-module-source-map"),
    ("entry", .str (host.pathResolve host.cwd "src/index.js")),
    ("devServer", configDevServer host),
    ("output", configOutput host isEnvDevelopment isEnvProduction),
    ("cache", configCache host env2),
    ("infrastructureLogging", .obj [("level", .str "none")]),
    ("optimization", configOptimization isEnvProduction),
    ("resolve", configResolve host),
    ("module", configModule host env2 isEnvDevelopment isEnvProduction),
    ("plugins", .arr (configPlugins host env2 isEnvDevelopment isEnvProduction)),
    -- Turn off performance processing
    ("performance", .bool false)])

/-! ## `.storybook/main.js` -/

/-- The hook `webpackFinal(config, { configType })` of the Storybook
configuration: the `process.env` it leaves, and the object it returns or the
error it throws. -/
def webpackFinal (host : Host) (env : ProcessEnv) (config : JsVal) (configType : String) :
    ProcessEnv × Except JsError JsVal :=
  let env1 := ProcessEnv.set env "STORYBOOK" (host.toStr (.bool true))
  let mode := host.toLowerCase configType
  let built := createConfig host env1 .null (.str mode)
  let webpackConfig := built.2
  (built.1, do
    -- ...config
    let top := config.ownProps
    -- module: { ...config.module, rules: webpackConfig.module.rules }
    let configModule ← config.prop "module"
    let siteModule ← webpackConfig.prop "module"
    let rules ← siteModule.prop "rules"
    let moduleValue := JsVal.obj (Fields.set configModule.ownProps "rules" rules)
    -- resolve: { ...config.resolve, modules: [...] }
    let configResolve ← config.prop "resolve"
    let configModules ← configResolve.prop "modules"
    let incoming ← configModules.iterate
    let siteResolve ← webpackConfig.prop "resolve"
    let siteModules ← siteResolve.prop "modules"
    let added ← siteModules.iterate
    let resolveValue :=
      JsVal.obj (Fields.set configResolve.ownProps "modules" (.arr (incoming ++ added)))
    pure (.obj (Fields.set (Fields.set top "module" moduleValue) "resolve" resolveValue)))

/-! ## Reading results -/

/-- The own property `key` of a value, `undefined` when it has none. -/
def JsVal.field (v : JsVal) (key : String) : JsVal := Fields.get v.ownProps key

/-- The own property `key` of a value, if it has it. -/
def JsVal.field? (v : JsVal) (key : String) : Option JsVal := Fields.find? v.ownProps key

/-- A host for examples: paths are joined with `/`, every file exists. -/
def exampleHost : Host where
  cwd := "/site"
  pathResolve := fun a b => a ++ "/" ++ b
  pathResolve1 := fun a => a
  pathJoin := fun a b => a ++ "/" ++ b
  requireResolve := fun r => "/site/node_modules/" ++ r
  existsSync := fun _ => true
  md5OfEnv := fun _ => "d41d8cd98f00b204e9800998ecf8427e"
  filename := "/site/webpack.config.js"
  dirname := "/site"
  miniCssExtractLoader := "/site/node_modules/mini-css-extract-plugin/dist/loader.js"
  toStr := fun v =>
    match v with
    | .str t => t
    | .bool true => "true"
    | .bool false => "false"
    | .null => "null"
    | _ => "undefined"
  toLowerCase := fun t => String.mk (t.toList.map Char.toLower)

/-- The `resolve` section of `exampleStorybookFields`. -/
def exampleStorybookResolve : Fields :=
  [("extensions", .arr [.str ".mjs", .str ".js"]),
   ("modules", .arr [.str "node_modules", .str "/storybook/node_modules"])]

/-- The fields of a configuration as Storybook hands it to `webpackFinal`. -/
def exampleStorybookFields : Fields :=
  [("name", .str "preview"),
   ("module", .obj [
     ("noParse", .regex "jquery"),
     ("rules", .arr [.obj [("test", .regex "\\.md$"), ("type", .str "asset/source")]])]),
   ("resolve", .obj exampleStorybookResolve),
   ("plugins", .arr [.inst "ProgressPlugin" []])]

/-- A laptop scene: a logo, the frame (the lid) and a second node named `Frame`. -/
def exampleLaptopScene : Scene :=
  { position := ⟨0, 0, 0⟩,
    children := [⟨"Logo", ⟨0, 0, 0⟩⟩, ⟨"Frame", ⟨0, 0, 0⟩⟩, ⟨"Frame", ⟨1, 2, 3⟩⟩] }

/-- A scene without a node named `Frame`. -/
def exampleFramelessScene : Scene :=
  { position := ⟨0, 0, 0⟩,
    children := [⟨"Logo", ⟨0, 0, 0⟩⟩, ⟨"Screen", ⟨0, 0, 0⟩⟩] }

/-- The second model of a list, placed at `(1, 2, 3)`, with a show delay of 1000. -/
def exampleArgs (animation : String) (scene : Scene) : AnimationArgs :=
  { model := { position := ⟨1, 2, 3⟩, animation := animation },
    gltf := { scene := scene },
    reduceMotion := false,
    index := 1,
    showDelay := 1000 }

/-- The three.js conversion of degrees to radians, `degrees * (Math.PI / 180)`. -/
def exampleDegToRad (degrees : F64) : F64 := degrees * (F64.pi / 180)

/-- A model placed at `(0, -0.4, 0)`, sliding up, with no delay. -/
def exampleLowArgs : AnimationArgs :=
  { model := { position := ⟨0, -0.4, 0⟩, animation := "spring-up" },
    gltf := { scene := { position := ⟨0, 0, 0⟩, children := [] } },
    reduceMotion := false,
    index := 0,
    showDelay := 3 }

/-- A page with one foreign `mousemove` listener and no spring. -/
def examplePage : Page :=
  { innerWidth := 1280, innerHeight := 720, mousemoveListeners := [7],
    rotation := ⟨0, 0, 0⟩, playbacks := [], invalidations := 0 }

/-- Two mouse moves with a spring frame in between. -/
def exampleEvents : List PageEvent :=
  [.mouseMove ⟨640, 360⟩, .springFrame ⟨0.01, 0⟩ ⟨0.1, 0⟩, .mouseMove ⟨1280, 0⟩]

/-! ## Properties -/

/-! ### Objects -/

theorem Fields.find?_set (fs : Fields) (key k : String) (v : JsVal) :
    Fields.find? (Fields.set fs key v) k = if k = key then some v else Fields.find? fs k := by
  induction fs with
  | nil =>
    by_cases h : key = k
    · simp [Fields.set, Fields.find?, h]
    · have h2 : ¬ k = key := fun e => h e.symm
      simp [Fields.set, Fields.find?, h, h2]
  | cons p rest ih =>
    obtain ⟨a, b⟩ := p
    by_cases hk : a = key
    · subst hk
      by_cases h : a = k
      · simp [Fields.set, Fields.find?, h]
      · have h2 : ¬ k = a := fun e => h e.symm
        simp [Fields.set, Fields.find?, h, h2]
    · by_cases ha : a = k
      · subst ha
        simp [Fields.set, Fields.find?, hk]
      · simp [Fields.set, Fields.find?, hk, ha, ih]

theorem Fields.get_set_same (fs : Fields) (key : String) (v : JsVal) :
    Fields.get (Fields.set fs key v) key = v := by
  simp [Fields.get, Fields.find?_set]

theorem Fields.get_set_other (fs : Fields) (key k : String) (v : JsVal) (h : k ≠ key) :
    Fields.get (Fields.set fs key v) k = Fields.get fs k := by
  simp [Fields.get, Fields.find?_set, h]

theorem JsVal.strictEqStr_iff (v : JsVal) (s : String) :
    v.strictEqStr s = true ↔ v = .str s := by
  cases v <;> simp [JsVal.strictEqStr]

/-! ### `webpack.config.js` -/

theorem createConfig_output (host : Host) (env : ProcessEnv) (u mode : JsVal) :
    Fields.get (createConfig host env u mode).2.ownProps "output" =
      configOutput host (mode.strictEqStr "development") (mode.strictEqStr "production") := by
  simp [createConfig, JsVal.ownProps, Fields.get, Fields.find?]

theorem createConfig_module (host : Host) (env : ProcessEnv) (u mode : JsVal) :
    Fields.get (createConfig host env u mode).2.ownProps "module" =
      configModule host
        (ProcessEnv.set (ProcessEnv.set env "NODE_ENV" (host.toStr mode)) "BABEL_ENV" (host.toStr mode))
        (mode.strictEqStr "development") (mode.strictEqStr "production") := by
  simp [createConfig, JsVal.ownProps, Fields.get, Fields.find?]

theorem createConfig_resolve (host : Host) (env : ProcessEnv) (u mode : JsVal) :
    Fields.get (createConfig host env u mode).2.ownProps "resolve" = configResolve host := by
  simp [createConfig, JsVal.ownProps, Fields.get, Fields.find?]

/-- C4: for every mode passed to the configuration factory, `output.filename`
and `output.chunkFilename` are the content-hashed patterns exactly when the mode
is the string `production`; for every other mode they are the fixed
`static/js/bundle.js` and the unhashed `static/js/[name].chunk.js`. -/
theorem createConfig_output_filenames (host : Host) (env : ProcessEnv) (u mode : JsVal) :
    (((createConfig host env u mode).2.field "output").field "filename"
          = .str "static/js/[name].[contenthash:8].js" ∧
        ((createConfig host env u mode).2.field "output").field "chunkFilename"
          = .str "static/js/[name].[contenthash:8].chunk.js"
      ↔ mode = .str "production") ∧
    (mode ≠ .str "production" →
      ((createConfig host env u mode).2.field "output").field "filename"
          = .str "static/js/bundle.js" ∧
        ((createConfig host env u mode).2.field "output").field "chunkFilename"
          = .str "static/js/[name].chunk.js") := by
  have hout := createConfig_output host env u mode
  simp only [JsVal.field, hout]
  by_cases hp : mode.strictEqStr "production" = true
  · have hm := (JsVal.strictEqStr_iff mode "production").1 hp
    subst hm
    simp [configOutput, JsVal.strictEqStr, JsVal.ownProps, Fields.get, Fields.find?]
  · have hm : mode ≠ .str "production" := fun e => hp ((JsVal.strictEqStr_iff mode "production").2 e)
    simp [configOutput, hp, hm, JsVal.ownProps, Fields.get, Fields.find?]

/-- Witness of C4 in development mode: the fixed bundle name, no content hash. -/
theorem createConfig_output_filenames_witness :
    ((createConfig exampleHost [] .null (.str "development")).2.field "output").field "filename"
        = .str "static/js/bundle.js" ∧
      ((createConfig exampleHost [] .null (.str "development")).2.field "output").field "chunkFilename"
        = .str "static/js/[name].chunk.js" :=
  (createConfig_output_filenames exampleHost [] .null (.str "development")).2 (by simp)

/-! ### `.storybook/main.js` -/

/-- C3: for a configuration object whose `resolve` is an object with an array
`modules`, `webpackFinal` returns an object in which every top-level field other
than `module` and `resolve` is the incoming one, every field of `module` other
than `rules` and every field of `resolve` other than `modules` is the incoming
one, `module.rules` is the `module.rules` of the site configuration built with
the lower-cased `configType` as mode, and `resolve.modules` is the incoming
array followed by the `resolve.modules` of the site configuration. -/
theorem webpackFinal_frame (host : Host) (env : ProcessEnv) (cf rf : Fields) (ms : List JsVal)
    (configType : String)
    (hres : Fields.find? cf "resolve" = some (.obj rf))
    (hmods : Fields.find? rf "modules" = some (.arr ms)) :
    ∃ out : JsVal,
      (webpackFinal host env (.obj cf) configType).2 = .ok out ∧
      (∀ k, k ≠ "module" → k ≠ "resolve" → out.field? k = (JsVal.obj cf).field? k) ∧
      (∀ k, k ≠ "rules" →
        (out.field "module").field? k = ((JsVal.obj cf).field "module").field? k) ∧
      (∀ k, k ≠ "modules" →
        (out.field "resolve").field? k = ((JsVal.obj cf).field "resolve").field? k) ∧
      (out.field "module").field? "rules" =
        some (((createConfig host (ProcessEnv.set env "STORYBOOK" (host.toStr (.bool true)))
          .null (.str (host.toLowerCase configType))).2.field "module").field "rules") ∧
      (out.field "resolve").field? "modules" =
        some (.arr (ms ++ configResolveModules host)) ∧
      ((createConfig host (ProcessEnv.set env "STORYBOOK" (host.toStr (.bool true)))
          .null (.str (host.toLowerCase configType))).2.field "resolve").field "modules" =
        .arr (configResolveModules host) := by
  have hres2 : Fields.get cf "resolve" = .obj rf := by simp [Fields.get, hres]
  have hmods2 : Fields.get rf "modules" = .arr ms := by simp [Fields.get, hmods]
  have hmod := createConfig_module host (ProcessEnv.set env "STORYBOOK" (host.toStr (.bool true)))
    .null (.str (host.toLowerCase configType))
  have hrs := createConfig_resolve host (ProcessEnv.set env "STORYBOOK" (host.toStr (.bool true)))
    .null (.str (host.toLowerCase configType))
  have hcfg : ∃ fs, (createConfig host (ProcessEnv.set env "STORYBOOK" (host.toStr (.bool true)))
      .null (.str (host.toLowerCase configType))).2 = .obj fs := ⟨_, rfl⟩
  obtain ⟨fs, hfs⟩ := hcfg
  rw [hfs] at hmod hrs
  simp only [JsVal.ownProps] at hmod hrs
  have hrun : (webpackFinal host env (.obj cf) configType).2 = .ok
      (.obj (Fields.set
        (Fields.set cf "module"
          (.obj (Fields.set (Fields.get cf "module").ownProps "rules" ((Fields.get fs "module").field "rules"))))
        "resolve" (.obj (Fields.set rf "modules" (.arr (ms ++ configResolveModules host)))))) := by
    simp only [webpackFinal, hfs, JsVal.prop, hres2, hmods2, hmod, hrs, JsVal.field,
      JsVal.ownProps, bind, Except.bind, pure, Except.pure]
    simp only [configModule, configResolve, JsVal.iterate, JsVal.ownProps]
    simp [Fields.get, Fields.find?]
  refine ⟨_, hrun, ?_, ?_, ?_, ?_, ?_, ?_⟩
  · intro k h1 h2
    simp [JsVal.field?, JsVal.ownProps, Fields.find?_set, h1, h2]
  · intro k h1
    simp [JsVal.field?, JsVal.field, JsVal.ownProps, Fields.find?_set, Fields.get, h1]
  · intro k h1
    simp [JsVal.field?, JsVal.field, JsVal.ownProps, Fields.find?_set, Fields.get, h1, hres]
  · simp [JsVal.field?, JsVal.field, JsVal.ownProps, Fields.find?_set, Fields.get, hfs]
  · simp [JsVal.field?, JsVal.field, JsVal.ownProps, Fields.find?_set, Fields.get, hfs]
  · simp [JsVal.field, hfs, JsVal.ownProps, hrs, configResolve, Fields.get, Fields.find?]

/-- Witness of C3 on a Storybook configuration in development mode. -/
theorem webpackFinal_frame_witness :
    ∃ out : JsVal,
      (webpackFinal exampleHost [] (.obj exampleStorybookFields) "DEVELOPMENT").2 = .ok out ∧
      out.field? "name" = some (.str "preview") ∧
      (out.field "module").field? "noParse" = some (.regex "jquery") ∧
      (out.field "resolve").field? "modules" =
        some (.arr [.str "node_modules", .str "/storybook/node_modules",
          .str "node_modules", .str "/site/node_modules", .str "/site/src"]) := by
  obtain ⟨out, h1, h2, h3, _, _, h6, _⟩ :=
    webpackFinal_frame exampleHost [] exampleStorybookFields exampleStorybookResolve
      [.str "node_modules", .str "/storybook/node_modules"] "DEVELOPMENT"
      (by simp [exampleStorybookFields, Fields.find?])
      (by simp [exampleStorybookResolve, Fields.find?])
  refine ⟨out, h1, ?_, ?_, ?_⟩
  · rw [h2 "name" (by decide) (by decide)]
    simp [JsVal.field?, JsVal.ownProps, exampleStorybookFields, Fields.find?]
  · rw [h3 "noParse" (by decide)]
    simp [JsVal.field?, JsVal.field, JsVal.ownProps, exampleStorybookFields, Fields.find?,
      Fields.get]
  · rw [h6]
    simp [configResolveModules, exampleHost]

/-! ### Numbers -/

/-- The sum `0.1 + 0.2` is `0.30000000000000004`. -/
theorem F64.tenth_add_fifth : (0.1 + 0.2 : F64) = F64.finite false 1351079888211149 (-52) := by
  decide

/-- The product `3 * 0.6` is `1.7999999999999998`. -/
theorem F64.three_mul_six_tenths : (3 * 0.6 : F64) = F64.finite false 2026619832316723 (-50) := by
  decide

/-- The quotient `Math.PI / 180` is `0.017453292519943295`. -/
theorem F64.pi_div_180 : F64.pi / 180 = F64.finite false 5030569068109113 (-58) := by
  decide

/-- The difference `(2 ^ 53 + 2) - 1` is `2 ^ 53`. -/
theorem F64.sub_one_tie : (9007199254740994 - 1 : F64) = F64.finite false 1 53 := by
  decide

theorem F64.mul_comm (x y : F64) : x * y = y * x := by
  show F64.mul x y = F64.mul y x
  cases x <;> cases y <;> simp [F64.mul, Bool.xor_comm, Nat.mul_comm, Int.add_comm]

/-! ### `src/components/Model/animation.js` -/

/-- C5, as amended: with animation `spring-up` and `reduceMotion` false,
`getModelAnimation` leaves `gltf.scene.position` at `(x, y - 1, z)` for the model
position `(x, y, z)`, the subtraction being that of doubles, and returns a chain
of a delay of `300 * index + 0.6 * showDelay` (in double arithmetic) and a spring
whose `from` is that lowered position and whose `to` is the model position, so
that `from` and `to` differ in y only; the value of the animation writes the
position of the scene. -/
theorem getModelAnimation_springUp (degToRad : F64 → F64) (args : AnimationArgs)
    (hrm : args.reduceMotion = false)
    (hanim : args.model.animation = ModelAnimationType.SpringUp) :
    (getModelAnimation degToRad args).1 =
        { position := ⟨args.model.position.x, args.model.position.y - 1, args.model.position.z⟩,
          children := args.gltf.scene.children } ∧
      (getModelAnimation degToRad args).2 =
        .ok (some {
          animation := [
            .delay (300 * args.index + 0.6 * args.showDelay),
            .spring {
              from_ := ⟨args.model.position.x, args.model.position.y - 1, args.model.position.z⟩,
              to_ := args.model.position,
              stiffness := 60, damping := 16, restSpeed := 0.001 }],
          modelValue := {
            init := ⟨args.model.position.x, args.model.position.y - 1, args.model.position.z⟩,
            target := .scenePosition } }) ∧
      (∀ v : Vector3,
        ValueTarget.scenePosition.onUpdate v (getModelAnimation degToRad args).1 =
          { position := v, children := args.gltf.scene.children }) := by
  have hmul : args.showDelay * 0.6 = 0.6 * args.showDelay := F64.mul_comm _ _
  refine ⟨?_, ?_, ?_⟩
  · simp [getModelAnimation, hrm, hanim, Vector3.setSpread, Vector3.set, Vector3.toArray]
  · simp [getModelAnimation, hrm, hanim, Vector3.setSpread, Vector3.set, Vector3.toArray, chain,
      hmul]
  · intro v
    simp [ValueTarget.onUpdate, getModelAnimation, hrm, hanim, Vector3.setSpread, Vector3.set,
      Vector3.toArray]

/-- Witness of C5: the model at `(1, 2, 3)`, second in the list with a show
delay of 1000, starts at `(1, 1, 3)` after a delay of 900. -/
theorem getModelAnimation_springUp_witness :
    (getModelAnimation exampleDegToRad (exampleArgs "spring-up" exampleLaptopScene)).1.position
        = ⟨1, 1, 3⟩ ∧
      (getModelAnimation exampleDegToRad (exampleArgs "spring-up" exampleLaptopScene)).2 =
        .ok (some {
          animation := [
            .delay 900,
            .spring { from_ := ⟨1, 1, 3⟩, to_ := ⟨1, 2, 3⟩,
                      stiffness := 60, damping := 16, restSpeed := 0.001 }],
          modelValue := { init := ⟨1, 1, 3⟩, target := .scenePosition } }) := by
  obtain ⟨h1, h2, _⟩ :=
    getModelAnimation_springUp exampleDegToRad (exampleArgs "spring-up" exampleLaptopScene) rfl rfl
  refine ⟨?_, ?_⟩
  · rw [h1]
    decide
  · rw [h2]
    exact congrArg (fun r => Except.ok (some r)) (by decide)

/-- C5 as stated fails: for the model at `(0, -0.4, 0)` the scene (and the `from`
of the spring) is placed at y = -1.4 rounded to a double, which lies
`1 - 2 ^ -53` below the model, not 1. -/
theorem getModelAnimation_springUp_not_exact :
    ∃ a b : Rat,
      exampleLowArgs.model.position.y.value? = some a ∧
      (getModelAnimation exampleDegToRad exampleLowArgs).1.position.y.value? = some b ∧
      a - b = 1 - 1 / 2 ^ 53 ∧
      b ≠ a - 1 := by
  have ha : exampleLowArgs.model.position.y = F64.finite true 3602879701896397 (-53) := by
    decide
  have hb : (getModelAnimation exampleDegToRad exampleLowArgs).1.position.y
      = F64.finite true 3152519739159347 (-51) := by
    decide
  refine ⟨-(3602879701896397 / 2 ^ 53), -(3152519739159347 / 2 ^ 51), ?_, ?_, ?_, ?_⟩
  · rw [ha]
    norm_num [F64.value?]
  · rw [hb]
    norm_num [F64.value?]
  · norm_num
  · norm_num

/-- C6: with animation `laptop-open`, `reduceMotion` false and a child named
`Frame`, `getModelAnimation` places `gltf.scene` at the model position, sets the
rotation of the first child named `Frame` to `(degToRad 90, 0, 0)`, leaves every
other child as it was, and returns a chain of a delay of
`300 * index + showDelay + 200` and a spring from that rotation to `(0, 0, 0)`;
the value of the animation writes the rotation of that same child and nothing
else. -/
theorem getModelAnimation_laptopOpen (degToRad : F64 → F64) (args : AnimationArgs)
    (hrm : args.reduceMotion = false)
    (hanim : args.model.animation = ModelAnimationType.LaptopOpen)
    (hframe : ∃ node ∈ args.gltf.scene.children, node.name = MeshType.Frame) :
    ∃ (i : Nat) (frame : Object3D),
      args.gltf.scene.children[i]? = some frame ∧
      frame.name = MeshType.Frame ∧
      (∀ j node, j < i → args.gltf.scene.children[j]? = some node → node.name ≠ MeshType.Frame) ∧
      (getModelAnimation degToRad args).1.position = args.model.position ∧
      (getModelAnimation degToRad args).1.children[i]? =
        some { frame with rotation := ⟨degToRad 90, 0, 0⟩ } ∧
      (∀ j, j ≠ i →
        (getModelAnimation degToRad args).1.children[j]? = args.gltf.scene.children[j]?) ∧
      (getModelAnimation degToRad args).2 =
        .ok (some {
          animation := [
            .delay (300 * args.index + args.showDelay + 200),
            .spring { from_ := ⟨degToRad 90, 0, 0⟩, to_ := ⟨0, 0, 0⟩,
                      stiffness := 50, damping := 14, restSpeed := 0.001 }],
          modelValue := { init := ⟨degToRad 90, 0, 0⟩, target := .childRotation i } }) ∧
      (∀ v : Vector3,
        ((ValueTarget.childRotation i).onUpdate v (getModelAnimation degToRad args).1).children[i]?
            = some { frame with rotation := v } ∧
        ((ValueTarget.childRotation i).onUpdate v (getModelAnimation degToRad args).1).position
            = args.model.position ∧
        ∀ j, j ≠ i →
          ((ValueTarget.childRotation i).onUpdate v (getModelAnimation degToRad args).1).children[j]?
            = args.gltf.scene.children[j]?) := by
  have hne : ModelAnimationType.LaptopOpen ≠ ModelAnimationType.SpringUp := by decide
  obtain ⟨node, hmem, hname⟩ := hframe
  have hsome : ∃ i, args.gltf.scene.children.findIdx? (fun n => decide (n.name = MeshType.Frame))
      = some i := by
    cases h : args.gltf.scene.children.findIdx? (fun n => decide (n.name = MeshType.Frame)) with
    | some i => exact ⟨i, rfl⟩
    | none =>
      rw [List.findIdx?_eq_none_iff] at h
      have := h node hmem
      simp [hname] at this
  obtain ⟨i, hi⟩ := hsome
  obtain ⟨hlt, hp, hfirst⟩ := List.findIdx?_eq_some_iff_getElem.1 hi
  refine ⟨i, args.gltf.scene.children[i], ?_, ?_, ?_, ?_, ?_, ?_, ?_, ?_⟩
  · simp [hlt]
  · simpa using hp
  · intro j n hj hjn
    have hjl : j < args.gltf.scene.children.length := Nat.lt_trans hj hlt
    have := hfirst j hj
    rw [List.getElem?_eq_getElem hjl] at hjn
    simp only [Option.some.injEq] at hjn
    rw [← hjn]
    simpa using this
  · simp [getModelAnimation, hrm, hne, hanim, hi, Vector3.setSpread, Vector3.set, Vector3.toArray]
  · simp [getModelAnimation, hrm, hne, hanim, hi, Vector3.setSpread, Vector3.set, Vector3.toArray,
      hlt]
  · intro j hj
    have hj2 : i ≠ j := fun e => hj e.symm
    simp [getModelAnimation, hrm, hne, hanim, hi, List.getElem?_modify_ne _ _ hj2]
  · simp [getModelAnimation, hrm, hne, hanim, hi, chain]
  · intro v
    refine ⟨?_, ?_, ?_⟩
    · simp [ValueTarget.onUpdate, getModelAnimation, hrm, hne, hanim, hi, Vector3.setSpread,
        Vector3.set, Vector3.toArray, hlt]
    · simp [ValueTarget.onUpdate, getModelAnimation, hrm, hne, hanim, hi, Vector3.setSpread,
        Vector3.set, Vector3.toArray]
    · intro j hj
      have hj2 : i ≠ j := fun e => hj e.symm
      simp [ValueTarget.onUpdate, getModelAnimation, hrm, hne, hanim, hi,
        List.getElem?_modify_ne _ _ hj2]

/-- Witness of C6: of the two nodes named `Frame`, the first one (child 1) is
opened to a quarter turn and the second keeps its rotation; an update of the
value turns child 1. -/
theorem getModelAnimation_laptopOpen_witness :
    (∃ (i : Nat) (frame : Object3D),
      exampleLaptopScene.children[i]? = some frame ∧
      (getModelAnimation exampleDegToRad (exampleArgs "laptop-open" exampleLaptopScene)).1.children[i]? =
        some { frame with rotation := ⟨exampleDegToRad 90, 0, 0⟩ } ∧
      ((ValueTarget.childRotation i).onUpdate ⟨7, 8, 9⟩
        (getModelAnimation exampleDegToRad (exampleArgs "laptop-open" exampleLaptopScene)).1).children[i]?
        = some { frame with rotation := ⟨7, 8, 9⟩ }) ∧
      (getModelAnimation exampleDegToRad (exampleArgs "laptop-open" exampleLaptopScene)).1 =
        { position := ⟨1, 2, 3⟩,
          children := [⟨"Logo", ⟨0, 0, 0⟩⟩,
            ⟨"Frame", ⟨F64.finite false 884279719003555 (-49), 0, 0⟩⟩,
            ⟨"Frame", ⟨1, 2, 3⟩⟩] } ∧
      ((ValueTarget.childRotation 1).onUpdate ⟨7, 8, 9⟩
        (getModelAnimation exampleDegToRad (exampleArgs "laptop-open" exampleLaptopScene)).1).children
        = [⟨"Logo", ⟨0, 0, 0⟩⟩, ⟨"Frame", ⟨7, 8, 9⟩⟩, ⟨"Frame", ⟨1, 2, 3⟩⟩] := by
  obtain ⟨i, frame, h1, _, _, _, h5, _, _, h8⟩ :=
    getModelAnimation_laptopOpen exampleDegToRad (exampleArgs "laptop-open" exampleLaptopScene)
      rfl rfl ⟨⟨"Frame", ⟨0, 0, 0⟩⟩, by simp [exampleArgs, exampleLaptopScene], rfl⟩
  exact ⟨⟨i, frame, h1, h5, (h8 ⟨7, 8, 9⟩).1⟩, by decide, by decide⟩

/-- C2: with animation `laptop-open`, `reduceMotion` false and no child named
`Frame`, `getModelAnimation` throws instead of returning, and when it throws
`gltf.scene.position` has already been overwritten with the model position (the
children are untouched): a scene that was placed elsewhere is left changed. -/
theorem getModelAnimation_missing_frame (degToRad : F64 → F64) (args : AnimationArgs)
    (hrm : args.reduceMotion = false)
    (hanim : args.model.animation = ModelAnimationType.LaptopOpen)
    (hframe : ∀ node ∈ args.gltf.scene.children, node.name ≠ MeshType.Frame) :
    (∃ e, (getModelAnimation degToRad args).2 = .error e) ∧
      (getModelAnimation degToRad args).1.position = args.model.position ∧
      (getModelAnimation degToRad args).1.children = args.gltf.scene.children ∧
      (args.gltf.scene.position ≠ args.model.position →
        (getModelAnimation degToRad args).1 ≠ args.gltf.scene) := by
  have hne : ModelAnimationType.LaptopOpen ≠ ModelAnimationType.SpringUp := by decide
  have hnone : args.gltf.scene.children.findIdx? (fun n => decide (n.name = MeshType.Frame))
      = none := by
    rw [List.findIdx?_eq_none_iff]
    intro x hx
    simpa using hframe x hx
  have hpos : (getModelAnimation degToRad args).1.position = args.model.position := by
    simp [getModelAnimation, hrm, hne, hanim, hnone, Vector3.setSpread, Vector3.set,
      Vector3.toArray]
  refine ⟨?_, hpos, ?_, ?_⟩
  · simp [getModelAnimation, hrm, hne, hanim, hnone]
  · simp [getModelAnimation, hrm, hne, hanim, hnone]
  · intro h e
    rw [e] at hpos
    exact h hpos

/-- Witness of C2: a scene at the origin without a frame, a model at `(1, 2, 3)`. -/
theorem getModelAnimation_missing_frame_witness :
    (∃ e, (getModelAnimation exampleDegToRad
        (exampleArgs "laptop-open" exampleFramelessScene)).2 = .error e) ∧
      (getModelAnimation exampleDegToRad
        (exampleArgs "laptop-open" exampleFramelessScene)).1.position = ⟨1, 2, 3⟩ ∧
      (getModelAnimation exampleDegToRad
        (exampleArgs "laptop-open" exampleFramelessScene)).1 ≠ exampleFramelessScene := by
  obtain ⟨h1, h2, _, h4⟩ :=
    getModelAnimation_missing_frame exampleDegToRad (exampleArgs "laptop-open" exampleFramelessScene)
      rfl rfl (by simp [exampleArgs, exampleFramelessScene, MeshType.Frame])
  exact ⟨h1, h2, h4 (by decide)⟩

/-! ### `src/components/Portrait/index.js` -/

theorem modify_last {α : Type} (f : α → α) (l : List α) (a : α) :
    (l ++ [a]).modify f l.length = l ++ [f a] := by
  have h := List.modifyTailIdx_add (List.modifyHead f) 0 l [a]
  simpa [List.modify] using h

/-- The springs started so far are appended to those of the page, the variable
`rotationSpring` refers to the last of them, and the listeners stay as they are. -/
theorem pageRun_invariant (callback : Nat) (base : List Playback) (es : List PageEvent) :
    ∀ (st : Page × EffectVars) (started : List Playback),
      st.1.playbacks = base ++ started →
      st.2.rotationSpring =
        (if started = [] then none else some (base.length + started.length - 1)) →
      ∃ started2 : List Playback,
        (pageRun callback st es).1.playbacks = base ++ started2 ∧
        (pageRun callback st es).2.rotationSpring =
          (if started2 = [] then none else some (base.length + started2.length - 1)) ∧
        (pageRun callback st es).1.mousemoveListeners = st.1.mousemoveListeners ∧
        started2.length = started.length +
          (if callback ∈ st.1.mousemoveListeners then es.countP PageEvent.isMouseMove else 0) := by
  induction es with
  | nil =>
    intro st started h1 h2
    exact ⟨started, by simpa [pageRun] using h1, by simpa [pageRun] using h2, by simp [pageRun],
      by simp⟩
  | cons e rest ih =>
    intro st started h1 h2
    have hrun : pageRun callback st (e :: rest) = pageRun callback (pageStep callback st e) rest := by
      simp [pageRun]
    rw [hrun]
    cases e with
    | mouseMove event =>
      by_cases hmem : callback ∈ st.1.mousemoveListeners
      · have hstep : pageStep callback st (.mouseMove event) = onMouseMove event st := by
          simp [pageStep, hmem]
        obtain ⟨p, hp0⟩ : ∃ p, (onMouseMove event st).1.playbacks = st.1.playbacks ++ [p] :=
          ⟨_, rfl⟩
        have hp : (onMouseMove event st).1.playbacks = base ++ (started ++ [p]) := by
          rw [hp0, h1, List.append_assoc]
        have hl : (onMouseMove event st).1.mousemoveListeners = st.1.mousemoveListeners := by
          simp [onMouseMove]
        have hs : (onMouseMove event st).2.rotationSpring =
            (if started ++ [p] = [] then none
              else some (base.length + (started ++ [p]).length - 1)) := by
          simp [onMouseMove, h1]
        obtain ⟨s2, a, b, c, d⟩ := ih (onMouseMove event st) _ hp hs
        rw [hstep]
        refine ⟨s2, a, b, by rw [c, hl], ?_⟩
        rw [d, hl]
        simp [hmem, PageEvent.isMouseMove]
        omega
      · have hstep : pageStep callback st (.mouseMove event) = st := by
          simp [pageStep, hmem]
        rw [hstep]
        obtain ⟨s2, a, b, c, d⟩ := ih st started h1 h2
        refine ⟨s2, a, b, c, ?_⟩
        rw [d]
        simp [hmem]
    | springFrame current velocity =>
      cases hv : st.2.rotationSpringValue with
      | none =>
        have hstep : pageStep callback st (.springFrame current velocity) = st := by
          simp [pageStep, hv]
        rw [hstep]
        obtain ⟨s2, a, b, c, d⟩ := ih st started h1 h2
        refine ⟨s2, a, b, c, ?_⟩
        rw [d]
        simp [PageEvent.isMouseMove]
      | some v =>
        have hstep : pageStep callback st (.springFrame current velocity) =
            (rotationOnUpdate current st.1,
              { st.2 with rotationSpringValue := some ⟨current, velocity⟩ }) := by
          simp [pageStep, hv]
        rw [hstep]
        obtain ⟨s2, a, b, c, d⟩ := ih
          (rotationOnUpdate current st.1,
            { st.2 with rotationSpringValue := some ⟨current, velocity⟩ }) started
          (by simpa [rotationOnUpdate] using h1) (by simpa using h2)
        refine ⟨s2, a, b, by simpa [rotationOnUpdate] using c, ?_⟩
        rw [d]
        simp [PageEvent.isMouseMove, rotationOnUpdate]

theorem modelEffect_listeners (isInViewport reduceMotion : Bool) (callback : Nat) (w : Page) (c : Nat)
    (hc : c ≠ callback) :
    c ∈ (modelEffect isInViewport reduceMotion callback w).1.mousemoveListeners ↔
      c ∈ w.mousemoveListeners := by
  unfold modelEffect Page.addEventListener
  by_cases h : (isInViewport && !reduceMotion) = true
  · by_cases hm : callback ∈ w.mousemoveListeners
    · simp [h, hm]
    · simp [h, hm, hc]
  · simp [h]

/-- C1: for every sequence of events after the effect ran, the cleanup returns
without throwing, leaves no `mousemove` listener with the callback of this
effect on the window (the other listeners stay), and, when mouse moves were
handled, calls `stop()` on the spring started last and on no other; when no
spring was started the springs of the page are left as they were. -/
theorem cleanup_after_events (isInViewport reduceMotion : Bool) (callback : Nat) (w : Page)
    (es : List PageEvent) :
    ∃ (started : List Playback) (w2 : Page),
      (pageRun callback (modelEffect isInViewport reduceMotion callback w) es).1.playbacks =
        w.playbacks ++ started ∧
      started.length =
        (if callback ∈ (modelEffect isInViewport reduceMotion callback w).1.mousemoveListeners
          then es.countP PageEvent.isMouseMove else 0) ∧
      (isInViewport = true → reduceMotion = false →
        callback ∈ (modelEffect isInViewport reduceMotion callback w).1.mousemoveListeners) ∧
      effectThenCleanup isInViewport reduceMotion callback w es = .ok w2 ∧
      callback ∉ w2.mousemoveListeners ∧
      (∀ c, c ≠ callback → (c ∈ w2.mousemoveListeners ↔ c ∈ w.mousemoveListeners)) ∧
      (started = [] → w2.playbacks = w.playbacks) ∧
      (∀ p, started.getLast? = some p →
        w2.playbacks = w.playbacks ++ started.dropLast ++ [p.stop]) := by
  have hb1 : (modelEffect isInViewport reduceMotion callback w).1.playbacks = w.playbacks ++ [] := by
    unfold modelEffect Page.addEventListener
    split <;> [split; skip] <;> simp
  have hb2 : (modelEffect isInViewport reduceMotion callback w).2.rotationSpring =
      (if ([] : List Playback) = [] then none else some (w.playbacks.length + ([] : List Playback).length - 1)) := by
    unfold modelEffect
    split <;> simp
  obtain ⟨s2, a, b, c, d⟩ := pageRun_invariant callback w.playbacks es _ [] hb1 hb2
  have hreg : isInViewport = true → reduceMotion = false →
      callback ∈ (modelEffect isInViewport reduceMotion callback w).1.mousemoveListeners := by
    intro h1 h2
    unfold modelEffect Page.addEventListener
    by_cases hm : callback ∈ w.mousemoveListeners
    · simp [h1, h2, hm]
    · simp [h1, h2, hm]
  have hlist : ∀ (pb : List Playback),
      callback ∉ ({ (pageRun callback (modelEffect isInViewport reduceMotion callback w) es).1.removeEventListener callback
          with playbacks := pb } : Page).mousemoveListeners ∧
      ∀ c, c ≠ callback →
        (c ∈ ({ (pageRun callback (modelEffect isInViewport reduceMotion callback w) es).1.removeEventListener callback
          with playbacks := pb } : Page).mousemoveListeners ↔ c ∈ w.mousemoveListeners) := by
    intro pb
    constructor
    · simp [Page.removeEventListener]
    · intro x hx
      simp only [Page.removeEventListener, c, List.mem_filter, decide_eq_true_eq]
      rw [modelEffect_listeners isInViewport reduceMotion callback w x hx]
      simp [hx]
  rcases List.eq_nil_or_concat s2 with hs | ⟨init, p, hs⟩
  · subst hs
    refine ⟨[], { (pageRun callback (modelEffect isInViewport reduceMotion callback w) es).1.removeEventListener callback
        with playbacks := w.playbacks }, a, by simpa using d, hreg, ?_, (hlist _).1, (hlist _).2, ?_, ?_⟩
    · simp only [if_true] at b
      simp only [List.append_nil] at a
      simp [effectThenCleanup, cleanup, b, Page.removeEventListener, a]
    · intro _; rfl
    · intro q hq; simp at hq
  · rw [List.concat_eq_append] at hs
    subst hs
    refine ⟨init ++ [p], { (pageRun callback (modelEffect isInViewport reduceMotion callback w) es).1.removeEventListener callback
        with playbacks := w.playbacks ++ init ++ [p.stop] }, a, by simpa using d, hreg, ?_,
        (hlist _).1, (hlist _).2, ?_, ?_⟩
    · have hidx : w.playbacks.length + (init ++ [p]).length - 1 = (w.playbacks ++ init).length := by
        simp
      have hb : (pageRun callback (modelEffect isInViewport reduceMotion callback w) es).2.rotationSpring
          = some (w.playbacks ++ init).length := by
        rw [b, ← hidx]; simp
      have ha : (pageRun callback (modelEffect isInViewport reduceMotion callback w) es).1.playbacks
          = (w.playbacks ++ init) ++ [p] := by
        rw [a, List.append_assoc]
      simp only [effectThenCleanup, cleanup, hb, Page.removeEventListener, ha, modify_last]
    · intro h; simp at h
    · intro q hq
      rw [List.getLast?_concat] at hq
      simp only [Option.some.injEq] at hq
      subst hq
      simp

/-- Witness of C1: two handled mouse moves, then the cleanup. -/
theorem cleanup_after_events_witness :
    ∃ (started : List Playback) (w2 : Page),
      started.length = 2 ∧
      effectThenCleanup true false 3 examplePage exampleEvents = .ok w2 ∧
      3 ∉ w2.mousemoveListeners := by
  obtain ⟨started, w2, _, h2, h3, h4, h5, _⟩ :=
    cleanup_after_events true false 3 examplePage exampleEvents
  refine ⟨started, w2, ?_, h4, h5⟩
  rw [h2, if_pos (h3 rfl rfl)]
  decide

end Portfolio
